import Mathlib

/-!
Verification of the Robin recursive-descent parser (`src/robin/parser.py`)
and its token module (`src/lexer/tokens.py`).

The Python source is shallowly embedded: every parser method becomes a Lean
function over an explicit parser state, with fallible behaviour (raised
Python exceptions) modelled in `Except`.  Python `None` flowing out of
`Parser.factor` is modelled by `Option`.  Recursive productions take a fuel
argument; running out of fuel yields the distinguished error `PyErr.fuel`,
which corresponds to no Python behaviour and is only a device to make the
recursion structural.

Modules of the repository that are referenced by `parser.py` but whose files
are not part of the source (`robin/ast.py`, `robin/settings.py`, the
`lexer` package itself) are modelled from the spec; each such definition
carries a doc comment saying so.
-/

namespace Robin

/-! ## Token values

The `value` field of a Python token is a string for every token kind except
indentation tokens, whose value is the absolute indentation column count
(spec section 6: "`value` for an indent token is the absolute indentation
column count").  `TValue` is that untyped value. -/

inductive TValue where
  | vstr (s : String)
  | vint (n : Nat)
deriving DecidableEq, Repr

/-- Token shape from `src/lexer/tokens.py`:
a `namedtuple` with fields `type`, `value`, `line`, `column`. -/
structure Token where
  type : String
  value : TValue
  line : Nat
  column : Nat
deriving DecidableEq, Repr

/-! ## Constants of `src/lexer/tokens.py` -/

def ENDMARKER : String := "endmarker"

def NEWLINE : String := "newline"

def INDENT : String := "indent"

def DEDENT : String := "dedent"

def ID : String := "id"

def KEYWORDS : String := "keywords"

def NUMBER : String := "number"

def STRING : String := "string"

def BYTES : String := "bytes"

def OPERATOR : String := "operator"

def DELIMITER : String := "delimiter"

/-- The frozenset `operator` of `src/lexer/tokens.py`, as a list. -/
def operatorSet : List String :=
  ["+", "-", "*", "**", "/", "//", "%",
   "<<", ">>", "&", "|", "^", "~",
   "<", ">", "<=", ">=", "==", "!="]

/-- The frozenset `delimiter` of `src/lexer/tokens.py`, as a list. -/
def delimiterSet : List String :=
  ["(", ")", "[", "]", "\x7b", "\x7d",
   ",", ":", ".", ";", "@", "=", "->",
   "+=", "-=", "*=", "/=", "//=", "%=",
   "&=", "|=", "^=", ">>=", "<<=", "**="]

/-- The frozenset `keywords` of `src/lexer/tokens.py` (33 words), as a list. -/
def keywordsSet : List String :=
  ["False", "class", "finally", "is", "return",
   "None", "continue", "for", "lambda", "try",
   "True", "def", "from", "nonlocal", "while",
   "and", "del", "global", "not", "with",
   "as", "elif", "if", "or", "yield",
   "assert", "else", "import", "pass",
   "break", "except", "in", "raise"]

/-- The Python standard library list `keyword.kwlist` used by
`iskeyword` in `src/lexer/tokens.py` (Python 3.7+, 35 words: the 33 words
of `keywordsSet` plus `async` and `await`). -/
def kwlist : List String :=
  ["False", "None", "True", "and", "as", "assert", "async", "await",
   "break", "class", "continue", "def", "del", "elif", "else", "except",
   "finally", "for", "from", "global", "if", "import", "in", "is",
   "lambda", "nonlocal", "not", "or", "pass", "raise", "return", "try",
   "while", "with", "yield"]

/-! ## Python exceptions raised by the embedded code -/

inductive PyErr where
  /-- `Parser.error`: `raise Exception(msg)` where the message holds the
  current token and, when given, the needed token type (`parser.py:29`). -/
  | unexpected (tok : Token) (need : Option TValue)
  /-- `TypeError`, e.g. from subscripting a `frozenset`
  (`tokens.delimiter` subscripted at `parser.py:100`) or from testing an
  `int` token value for substring membership in a string. -/
  | typeErr
  /-- `AttributeError`, e.g. from `tokens.EOF` (`parser.py:78`; the module
  `lexer.tokens` defines no attribute `EOF`), from `tokens.keywords.IF`
  (`parser.py:107`; `keywords` is a `frozenset`), or from
  `self.lexer.peek_token().type` when `peek_token()` is `None`
  (`parser.py:331`). -/
  | attrErr (name : String)
  /-- `raise IndentationError()` (`parser.py:375`). -/
  | indentationMismatch
  /-- `raise KeyError(...)` in `iskeyword` (`tokens.py:64`). -/
  | keyErr (s : String)
  /-- Fuel exhaustion of the embedding; corresponds to no Python behaviour. -/
  | fuel
deriving DecidableEq, Repr

/-- `iskeyword` from `src/lexer/tokens.py`:
returns `True` if the string is in `keywords`, raises `KeyError` if it is
in the Python standard list `kwlist`, and returns `False` otherwise. -/
def iskeyword (s : String) : Except PyErr Bool :=
  if s ∈ keywordsSet then .ok true
  else if s ∈ kwlist then .error (.keyErr s)
  else .ok false

/-! ## Python dynamic-typing helpers -/

/-- Character-list helper: does `pat` occur at the head of `l`? -/
def listLead : List Char → List Char → Bool
  | [], _ => true
  | _ :: _, [] => false
  | a :: as, b :: bs => a = b && listLead as bs

/-- Character-list helper: does `pat` occur anywhere in `l`? -/
def listHas : List Char → List Char → Bool
  | pat, [] => decide (pat = [])
  | pat, c :: cs => listLead pat (c :: cs) || listHas pat cs

/-- Python `needle in hay` for two strings: substring test
(the empty string is a substring of every string). -/
def pyStrIn (needle hay : String) : Bool :=
  listHas needle.data hay.data

/-- Python `==` on token values: equal only when both sides have the same
runtime type and the same content (an `int` never equals a string; no error). -/
def pyValEq : TValue → TValue → Bool
  | .vstr a, .vstr b => a = b
  | .vint a, .vint b => a = b
  | _, _ => false

/-- Python `!=` on token values. -/
def pyValNe (a b : TValue) : Bool := !(pyValEq a b)

/-- Python equality between a token value and a string literal. -/
def pyValEqStr (v : TValue) (t : String) : Bool := pyValEq v (.vstr t)

/-- Python `n != value` for an `int` on the left and a token value on the
right: an `int` compares unequal to every string. -/
def pyIntNeVal (n : Nat) : TValue → Bool
  | .vint m => n != m
  | .vstr _ => true

/-- Python `value in frozenset_of_strings`: membership test; an `int` is
simply not a member (no error). -/
def pyValInSet (v : TValue) (l : List String) : Bool :=
  match v with
  | .vstr t => decide (t ∈ l)
  | .vint _ => false

/-- Python membership of a token value in a short string: substring test when the
value is a string, `TypeError` when it is an `int`. -/
def pyValInChars (v : TValue) (chars : String) : Except PyErr Bool :=
  match v with
  | .vstr t => .ok (pyStrIn t chars)
  | .vint _ => .error .typeErr

/-! ## Attribute and subscript accesses on the `lexer.tokens` module

These three definitions embed expressions that `parser.py` evaluates
against the module defined by `src/lexer/tokens.py`. -/

/-- Python evaluation of `tokens.delimiter[c]` (`parser.py:100,103`):
`delimiter` in `src/lexer/tokens.py` is a `frozenset`, which does not
support subscripting, so evaluating this expression raises `TypeError`
regardless of `c`. -/
def delimiterSubscript (_c : String) : Except PyErr TValue :=
  .error .typeErr

/-- Python evaluation of `tokens.keywords.NAME`
(`parser.py:107,109,111,205`): `keywords` in `src/lexer/tokens.py` is a
`frozenset`, which has no attribute `IF`, `WHILE`, `DEF` or `ELSE`, so
evaluating this expression raises `AttributeError`. -/
def keywordsAttr (name : String) : Except PyErr TValue :=
  .error (.attrErr name)

/-- Python evaluation of `tokens.EOF` (`parser.py:78`): the module
`src/lexer/tokens.py` defines `ENDMARKER` but no attribute `EOF`, so
evaluating this expression raises `AttributeError`. -/
def tokensEOF : Except PyErr TValue :=
  .error (.attrErr "EOF")

/-! ## AST node model

Modelled from the spec: `robin/ast.py` is not among the source files; the
node shapes follow spec section 3 and the constructor calls in
`parser.py`.  The Python class `Bool` is named `BoolLit` here.  Fields in
expression position hold `Option Ast` because `Parser.factor` (and hence
`expr`) can return Python `None`. -/

inductive Ast where
  | Program (block : Ast)
  | Block (children : List Ast)
  | FunctionDef (name : Ast) (params : List (Option Ast)) (block : Ast)
  | If (condition : Option Ast) (token : Token) (right_block : Ast) (wrong_block : Ast)
  | While (condition : Option Ast) (token : Token) (block : Ast)
  | Assign (left : Ast) (token : Token) (right : Option Ast)
  | FunctionCall (name : Ast) (args : List (Option Ast))
  | Var (token : Token)
  | Op (left : Option Ast) (op : Token) (right : Option Ast)
  | UnaryOp (op : Token) (operand : Option Ast)
  | Num (token : Token)
  | BoolLit (token : Token)
  | RegularStr (token : Token)
  | EmptyOp

/-! ## Lexer interface and parser state

Modelled from the spec: the `lexer` package (`PeekTokenLexer`) is not among
the source files.  Per the Token Stream Contract (spec section 6),
`next_token()` advances and returns the next token, returning a synthetic
end-marker token forever after the true end of input, and `peek_token()`
returns the next token without consuming it, or `None` when no further
token exists.  The token stream is modelled as the list of not yet
delivered tokens. -/

/-- Modelled from the spec: the synthetic end-marker token that
`next_token()` returns forever after the end of input. -/
def endMarkerTok : Token := ⟨ENDMARKER, .vstr ENDMARKER, 0, 0⟩

/-- Modelled from the spec: `PeekTokenLexer.next_token()`. -/
def nextToken : List Token → Token × List Token
  | [] => (endMarkerTok, [])
  | t :: ts => (t, ts)

/-- Modelled from the spec: `PeekTokenLexer.peek_token()`; `none` is
Python `None`. -/
def peekToken (ts : List Token) : Option Token := ts.head?

/-- Modelled from the spec: `INDENT_LENGTH` from `robin/settings.py` (the
the INDENT_UNIT of the spec, "a fixed configuration constant — the number of
columns per nesting level"); its concrete value is not fixed by the spec
and nothing proved below depends on the choice. -/
def INDENT_LENGTH : Nat := 4

/-- Parser state: remaining lexer stream, the `self.indent` counter and the
`self.current_token` cursor (`Parser.__init__`, `parser.py:24`). -/
structure PState where
  lexer : List Token
  indent : Nat
  current : Token
deriving DecidableEq, Repr

/-- `Parser.__init__`: `self.indent = 0`,
`self.current_token = lexer.next_token()`. -/
def initState (ts : List Token) : PState :=
  let (t, rest) := nextToken ts
  { lexer := rest, indent := 0, current := t }

/-- Advance the cursor by one token (the successful branch of `eat`). -/
def advanceState (s : PState) : PState :=
  let (t, rest) := nextToken s.lexer
  { lexer := rest, indent := s.indent, current := t }

/-- `Parser.eat` (`parser.py:35`): consume the current token when its type
matches, otherwise `self.error(type)` raises an exception naming the
current token and the needed type. -/
def eat (ty : String) (s : PState) : Except PyErr (Unit × PState) :=
  if s.current.type = ty then .ok ((), advanceState s)
  else .error (.unexpected s.current (some (.vstr ty)))

/-- `self.eat(self.current_token.value)` (`parser.py:260,295`): the token
value is passed where a type string is expected; a string value behaves
like `eat`, an `int` value can never equal the current type string, so the
mismatch branch of `eat` raises. -/
def eatDyn (v : TValue) (s : PState) : Except PyErr (Unit × PState) :=
  match v with
  | .vstr t => eat t s
  | .vint _ => .error (.unexpected s.current (some v))

/-- `Parser.check_indent` (`parser.py:358`). -/
def check_indent (s : PState) : Bool :=
  if s.indent = 0 then true
  else if s.current.type ≠ INDENT then false
  else if pyIntNeVal (s.indent * INDENT_LENGTH) s.current.value then false
  else true

/-- `Parser.eat_indent` (`parser.py:370`). -/
def eat_indent (s : PState) : Except PyErr (Unit × PState) :=
  if s.current.type = INDENT then
    if pyIntNeVal (s.indent * INDENT_LENGTH) s.current.value then
      .error .indentationMismatch
    else eat INDENT s
  else .ok ((), s)

/-- `Parser.empty` (`parser.py:218`): consumes a newline token when the
current token is one, and returns `EmptyOp`. -/
def empty (s : PState) : Except PyErr (Ast × PState) :=
  if s.current.type = NEWLINE then
    match eat NEWLINE s with
    | .error e => .error e
    | .ok (_, s1) => .ok (.EmptyOp, s1)
  else .ok (.EmptyOp, s)

/-- `Parser.variable` (`parser.py:238`): `Var` from the current token,
which must have type `ID`. -/
def variableRef (s : PState) : Except PyErr (Ast × PState) :=
  let vartoken := s.current
  match eat ID s with
  | .error e => .error e
  | .ok (_, s1) => .ok (.Var vartoken, s1)

/-! ## The recursive productions (`parser.py:41-356`)

Each function mirrors one `Parser` method; `while` loops are mirrored by
`..._loop` helpers carrying the loop state.  All take fuel. -/

mutual

/-- `Parser.program` (`parser.py:41`). -/
def program : Nat → PState → Except PyErr (Ast × PState)
  | 0, _ => .error .fuel
  | Nat.succ n, s =>
    match block n s with
    | .error e => .error e
    | .ok (b, s1) => .ok (.Program b, s1)

/-- `Parser.block` (`parser.py:70`). -/
def block : Nat → PState → Except PyErr (Ast × PState)
  | 0, _ => .error .fuel
  | Nat.succ n, s => block_loop n [] s

/-- The `while` loop of `Parser.block` (`parser.py:77-81`), with the
accumulated `result` list.  Note the loop condition reads `tokens.EOF`. -/
def block_loop : Nat → List Ast → PState → Except PyErr (Ast × PState)
  | 0, _, _ => .error .fuel
  | Nat.succ n, acc, s =>
    if check_indent s then
      match tokensEOF with
      | .error e => .error e
      | .ok ev =>
        if pyValNe s.current.value ev then
          match eat_indent s with
          | .error e => .error e
          | .ok (_, s1) =>
            match statement n s1 with
            | .error e => .error e
            | .ok (st, s2) => block_loop n (acc ++ [st]) s2
        else .ok (.Block acc, s)
    else .ok (.Block acc, s)

/-- `Parser.statement` (`parser.py:83`): the statement dispatcher.  For an
identifier it inspects one token of lookahead; the comparisons against
`tokens.delimiter` subscripted at two places of the body index a
`frozenset`, and the comparisons against `tokens.keywords.IF` /
`.WHILE` / `.DEF` read attributes a `frozenset` does not have. -/
def statement : Nat → PState → Except PyErr (Ast × PState)
  | 0, _ => .error .fuel
  | Nat.succ n, s =>
    if s.current.type = ID then
      match peekToken s.lexer with
      | none => empty s
      | some pk =>
        match delimiterSubscript "(" with
        | .error e => .error e
        | .ok d1 =>
          if pyValEq pk.value d1 then
            match function_call n s with
            | .error e => .error e
            | .ok (st, s1) =>
              match eat NEWLINE s1 with
              | .error e => .error e
              | .ok (_, s2) => .ok (st, s2)
          else
            match delimiterSubscript "=" with
            | .error e => .error e
            | .ok d2 =>
              if pyValEq pk.value d2 then assign_statement n s
              else empty s
    else
      match keywordsAttr "IF" with
      | .error e => .error e
      | .ok kIf =>
        if pyValEq s.current.value kIf then if_statement n s
        else
          match keywordsAttr "WHILE" with
          | .error e => .error e
          | .ok kWhile =>
            if pyValEq s.current.value kWhile then while_statement n s
            else
              match keywordsAttr "DEF" with
              | .error e => .error e
              | .ok kDef =>
                if pyValEq s.current.value kDef then function_def n s
                else empty s

/-- `Parser.function_call` (`parser.py:119`). -/
def function_call : Nat → PState → Except PyErr (Ast × PState)
  | 0, _ => .error .fuel
  | Nat.succ n, s =>
    match variableRef s with
    | .error e => .error e
    | .ok (fun_name, s1) =>
      match argument_list n s1 with
      | .error e => .error e
      | .ok (args, s2) => .ok (.FunctionCall fun_name args, s2)

/-- `Parser.argument_list` (`parser.py:130`). -/
def argument_list : Nat → PState → Except PyErr (List (Option Ast) × PState)
  | 0, _ => .error .fuel
  | Nat.succ n, s =>
    match eat "(" s with
    | .error e => .error e
    | .ok (_, s1) =>
      if pyValNe s1.current.value (.vstr ")") then
        match expr n s1 with
        | .error e => .error e
        | .ok (a, s2) =>
          match argument_loop n s2 with
          | .error e => .error e
          | .ok (rest, s3) =>
            match eat ")" s3 with
            | .error e => .error e
            | .ok (_, s4) => .ok (a :: rest, s4)
      else
        match eat ")" s1 with
        | .error e => .error e
        | .ok (_, s2) => .ok ([], s2)

/-- The `while` loop of `Parser.argument_list` (`parser.py:140-142`). -/
def argument_loop : Nat → PState → Except PyErr (List (Option Ast) × PState)
  | 0, _ => .error .fuel
  | Nat.succ n, s =>
    if pyValEqStr s.current.value "," then
      match eat "," s with
      | .error e => .error e
      | .ok (_, s1) =>
        match expr n s1 with
        | .error e => .error e
        | .ok (a, s2) =>
          match argument_loop n s2 with
          | .error e => .error e
          | .ok (rest, s3) => .ok (a :: rest, s3)
    else .ok ([], s)

/-- `Parser.while_statement` (`parser.py:147`). -/
def while_statement : Nat → PState → Except PyErr (Ast × PState)
  | 0, _ => .error .fuel
  | Nat.succ n, s =>
    let token := s.current
    match eat "while" s with
    | .error e => .error e
    | .ok (_, s1) =>
      match expr n s1 with
      | .error e => .error e
      | .ok (condition, s2) =>
        match eat ":" s2 with
        | .error e => .error e
        | .ok (_, s3) =>
          match eat NEWLINE s3 with
          | .error e => .error e
          | .ok (_, s4) =>
            match block n { s4 with indent := s4.indent + 1 } with
            | .error e => .error e
            | .ok (right_block, s5) =>
              .ok (.While condition token right_block,
                   { s5 with indent := s5.indent - 1 })

/-- `Parser.if_statement` (`parser.py:164`). -/
def if_statement : Nat → PState → Except PyErr (Ast × PState)
  | 0, _ => .error .fuel
  | Nat.succ n, s =>
    let token := s.current
    match eat "if" s with
    | .error e => .error e
    | .ok (_, s1) =>
      match expr n s1 with
      | .error e => .error e
      | .ok (condition, s2) =>
        match eat ":" s2 with
        | .error e => .error e
        | .ok (_, s3) =>
          match eat NEWLINE s3 with
          | .error e => .error e
          | .ok (_, s4) =>
            match block n { s4 with indent := s4.indent + 1 } with
            | .error e => .error e
            | .ok (right_block, s5) =>
              match elif_statement n { s5 with indent := s5.indent - 1 } with
              | .error e => .error e
              | .ok (wrong_block, s6) =>
                .ok (.If condition token right_block wrong_block, s6)

/-- `Parser.elif_statement` (`parser.py:185`).  The first branch compares
the current value with the literal string elif; the second branch compares it
with `tokens.keywords.ELSE`, an attribute a `frozenset` does not have. -/
def elif_statement : Nat → PState → Except PyErr (Ast × PState)
  | 0, _ => .error .fuel
  | Nat.succ n, s =>
    if pyValEqStr s.current.value "elif" then
      let token := s.current
      match eat "elif" s with
      | .error e => .error e
      | .ok (_, s1) =>
        match expr n s1 with
        | .error e => .error e
        | .ok (condition, s2) =>
          match eat ":" s2 with
          | .error e => .error e
          | .ok (_, s3) =>
            match eat NEWLINE s3 with
            | .error e => .error e
            | .ok (_, s4) =>
              match block n { s4 with indent := s4.indent + 1 } with
              | .error e => .error e
              | .ok (right_block, s5) =>
                match elif_statement n { s5 with indent := s5.indent - 1 } with
                | .error e => .error e
                | .ok (wrong_block, s6) =>
                  .ok (.If condition token right_block wrong_block, s6)
    else
      match keywordsAttr "ELSE" with
      | .error e => .error e
      | .ok kElse =>
        if pyValEq s.current.value kElse then
          match eat "else" s with
          | .error e => .error e
          | .ok (_, s1) =>
            match eat ":" s1 with
            | .error e => .error e
            | .ok (_, s2) =>
              match eat NEWLINE s2 with
              | .error e => .error e
              | .ok (_, s3) =>
                match block n { s3 with indent := s3.indent + 1 } with
                | .error e => .error e
                | .ok (b, s4) => .ok (b, { s4 with indent := s4.indent - 1 })
        else empty s

/-- `Parser.assign_statement` (`parser.py:224`). -/
def assign_statement : Nat → PState → Except PyErr (Ast × PState)
  | 0, _ => .error .fuel
  | Nat.succ n, s =>
    match variableRef s with
    | .error e => .error e
    | .ok (left, s1) =>
      let token := s1.current
      match eat "=" s1 with
      | .error e => .error e
      | .ok (_, s2) =>
        match expr n s2 with
        | .error e => .error e
        | .ok (right, s3) =>
          match eat NEWLINE s3 with
          | .error e => .error e
          | .ok (_, s4) => .ok (.Assign left token right, s4)

/-- `Parser.function_def` (`parser.py:50`). -/
def function_def : Nat → PState → Except PyErr (Ast × PState)
  | 0, _ => .error .fuel
  | Nat.succ n, s =>
    match eat "def" s with
    | .error e => .error e
    | .ok (_, s1) =>
      match variableRef s1 with
      | .error e => .error e
      | .ok (name, s2) =>
        match argument_list n s2 with
        | .error e => .error e
        | .ok (params, s3) =>
          match eat ":" s3 with
          | .error e => .error e
          | .ok (_, s4) =>
            match eat NEWLINE s4 with
            | .error e => .error e
            | .ok (_, s5) =>
              match block n { s5 with indent := s5.indent + 1 } with
              | .error e => .error e
              | .ok (b, s6) =>
                .ok (.FunctionDef name params b,
                     { s6 with indent := s6.indent - 1 })

/-- `Parser.expr` (`parser.py:248`). -/
def expr : Nat → PState → Except PyErr (Option Ast × PState)
  | 0, _ => .error .fuel
  | Nat.succ n, s =>
    match term_plus_minus n s with
    | .error e => .error e
    | .ok (node, s1) => expr_loop n node s1

/-- The `while` loop of `Parser.expr` (`parser.py:257-262`): folds further
comparisons while the current value is in the `operator` frozenset. -/
def expr_loop : Nat → Option Ast → PState → Except PyErr (Option Ast × PState)
  | 0, _, _ => .error .fuel
  | Nat.succ n, node, s =>
    if pyValInSet s.current.value operatorSet then
      let op := s.current
      match eatDyn s.current.value s with
      | .error e => .error e
      | .ok (_, s1) =>
        match term_plus_minus n s1 with
        | .error e => .error e
        | .ok (right, s2) => expr_loop n (some (.Op node op right)) s2
    else .ok (node, s)

/-- `Parser.term_plus_minus` (`parser.py:266`). -/
def term_plus_minus : Nat → PState → Except PyErr (Option Ast × PState)
  | 0, _ => .error .fuel
  | Nat.succ n, s =>
    match term_mul_div n s with
    | .error e => .error e
    | .ok (node, s1) => term_plus_minus_loop n node s1

/-- The `while` loop of `Parser.term_plus_minus` (`parser.py:275-280`):
the condition tests the current value for membership in the string +- and the operator token
is consumed by type. -/
def term_plus_minus_loop :
    Nat → Option Ast → PState → Except PyErr (Option Ast × PState)
  | 0, _, _ => .error .fuel
  | Nat.succ n, node, s =>
    match pyValInChars s.current.value "+-" with
    | .error e => .error e
    | .ok b =>
      if b then
        let op := s.current
        match eat s.current.type s with
        | .error e => .error e
        | .ok (_, s1) =>
          match term_mul_div n s1 with
          | .error e => .error e
          | .ok (right, s2) => term_plus_minus_loop n (some (.Op node op right)) s2
      else .ok (node, s)

/-- `Parser.term_mul_div` (`parser.py:285`). -/
def term_mul_div : Nat → PState → Except PyErr (Option Ast × PState)
  | 0, _ => .error .fuel
  | Nat.succ n, s =>
    match factor n s with
    | .error e => .error e
    | .ok (node, s1) => term_mul_div_loop n node s1

/-- The `while` loop of `Parser.term_mul_div` (`parser.py:293-298`): the
condition tests the current value for membership in the string */ and the operator token is
consumed by value. -/
def term_mul_div_loop :
    Nat → Option Ast → PState → Except PyErr (Option Ast × PState)
  | 0, _, _ => .error .fuel
  | Nat.succ n, node, s =>
    match pyValInChars s.current.value "*/" with
    | .error e => .error e
    | .ok b =>
      if b then
        let op := s.current
        match eatDyn s.current.value s with
        | .error e => .error e
        | .ok (_, s1) =>
          match factor n s1 with
          | .error e => .error e
          | .ok (right, s2) => term_mul_div_loop n (some (.Op node op right)) s2
      else .ok (node, s)

/-- `Parser.factor` (`parser.py:302`): when no alternative matches (also
when the outer sign test succeeds but neither inner branch does) the
Python function falls off its end and returns `None`. -/
def factor : Nat → PState → Except PyErr (Option Ast × PState)
  | 0, _ => .error .fuel
  | Nat.succ n, s =>
    if pyStrIn s.current.type "+-" then
      if s.current.type = "+" then
        let op := s.current
        match eat "+" s with
        | .error e => .error e
        | .ok (_, s1) =>
          match factor n s1 with
          | .error e => .error e
          | .ok (e1, s2) => .ok (some (.UnaryOp op e1), s2)
      else if pyValEqStr s.current.value "-" then
        let op := s.current
        match eat "-" s with
        | .error e => .error e
        | .ok (_, s1) =>
          match factor n s1 with
          | .error e => .error e
          | .ok (e1, s2) => .ok (some (.UnaryOp op e1), s2)
      else .ok (none, s)
    else if s.current.type = NUMBER then
      let integer := s.current
      match eat s.current.type s with
      | .error e => .error e
      | .ok (_, s1) => .ok (some (.Num integer), s1)
    else if s.current.type = ID then
      match peekToken s.lexer with
      | none => .error (.attrErr "type")
      | some pk =>
        if pk.type = "(" then
          match function_call n s with
          | .error e => .error e
          | .ok (a, s1) => .ok (some a, s1)
        else
          match variableRef s with
          | .error e => .error e
          | .ok (a, s1) => .ok (some a, s1)
    else if s.current.type = "(" then
      match eat "(" s with
      | .error e => .error e
      | .ok (_, s1) =>
        match expr n s1 with
        | .error e => .error e
        | .ok (e1, s2) =>
          match eat ")" s2 with
          | .error e => .error e
          | .ok (_, s3) => .ok (e1, s3)
    else if s.current.type = "True" ∨ s.current.type = "False" then
      let booltoken := s.current
      match eat s.current.type s with
      | .error e => .error e
      | .ok (_, s1) => .ok (some (.BoolLit booltoken), s1)
    else if s.current.type = STRING then
      let strtoken := s.current
      match eat STRING s with
      | .error e => .error e
      | .ok (_, s1) => .ok (some (.RegularStr strtoken), s1)
    else .ok (none, s)

end

/-- `Parser.parse` (`parser.py:350`): delegates to `program` (the `print`
call has no bearing on the result). -/
def parse (n : Nat) (s : PState) : Except PyErr (Ast × PState) :=
  program n s

/-! ## Concrete token streams

Modelled from the spec: concrete tokens as the external lexer delivers
them.  The parser consumes operator, delimiter and keyword tokens by their
literal spelling (for example `self.eat` with the literal string if at
`parser.py:173`, with a colon at `parser.py:175`), so such tokens carry the
literal as both `type` and `value`; identifier, number and newline tokens
carry the type constants of `src/lexer/tokens.py`; an indentation token
carries its column count as value (spec section 6). -/

def idTok (s : String) : Token := ⟨ID, .vstr s, 0, 0⟩

def numTok (s : String) : Token := ⟨NUMBER, .vstr s, 0, 0⟩

def litTok (s : String) : Token := ⟨s, .vstr s, 0, 0⟩

def nlTok : Token := ⟨NEWLINE, .vstr "\n", 0, 0⟩

def indentTok (k : Nat) : Token := ⟨INDENT, .vint k, 0, 0⟩

/-- Token stream of the statement `foo(1, 2)` followed by a newline. -/
def tsCallStmt : List Token :=
  [idTok "foo", litTok "(", numTok "1", litTok ",", numTok "2",
   litTok ")", nlTok]

/-- Token stream of the statement `foo = 1` followed by a newline. -/
def tsAssignStmt : List Token :=
  [idTok "foo", litTok "=", numTok "1", nlTok]

/-- Token stream of the expression `1 + 2 * 3`. -/
def tsOnePlusTwoTimesThree : List Token :=
  [numTok "1", litTok "+", numTok "2", litTok "*", numTok "3"]

/-- Token stream of the expression `(1 + 2) * 3`. -/
def tsParenSum : List Token :=
  [litTok "(", numTok "1", litTok "+", numTok "2", litTok ")",
   litTok "*", numTok "3"]

/-- Token stream of the expression `- - 3`. -/
def tsDoubleNeg : List Token :=
  [litTok "-", litTok "-", numTok "3"]

/-- Token stream of a full `if` / `elif` / `else` chain (each body one
assignment statement, indented one level of four columns). -/
def tsElifChain : List Token :=
  [litTok "if", numTok "1", litTok ":", nlTok,
   indentTok 4, idTok "x", litTok "=", numTok "1", nlTok,
   litTok "elif", numTok "2", litTok ":", nlTok,
   indentTok 4, idTok "y", litTok "=", numTok "2", nlTok,
   litTok "else", litTok ":", nlTok,
   indentTok 4, idTok "z", litTok "=", numTok "3", nlTok]

/-- Token stream of a minimal `if` statement with no `elif` and no `else`:
`if c:` then one indented assignment. -/
def tsSimpleIf : List Token :=
  [litTok "if", idTok "c", litTok ":", nlTok,
   indentTok 4, idTok "x", litTok "=", numTok "1", nlTok]

/-! ## Theorems -/

/-- Claim C1: the statement dispatcher is supposed to pick the production
from one token of lookahead — FunctionCall for a lookahead `(`, Assign for
a lookahead `=`, EmptyOp otherwise or when no lookahead exists.  What the
code does: for every identifier statement that has a lookahead token it
raises `TypeError`, because `parser.py:100` (and, were it reached,
`parser.py:103`) subscripts `tokens.delimiter`, a `frozenset`, before any
comparison happens.  Only the no-lookahead case yields EmptyOp as claimed.
The four conjuncts evaluate the dispatcher on `foo(1, 2)`, `foo = 1`, a
bare `foo` followed by a newline, and a bare `foo` at the end of input. -/
theorem c1_statement_dispatch_crash :
    statement 20 (initState tsCallStmt) = .error .typeErr ∧
    statement 20 (initState tsAssignStmt) = .error .typeErr ∧
    statement 20 (initState [idTok "foo", nlTok]) = .error .typeErr ∧
    statement 20 (initState [idTok "foo"]) =
      .ok (.EmptyOp, initState [idTok "foo"]) :=
  ⟨rfl, rfl, rfl, rfl⟩

/-- Claim C2: `1 + 2 * 3` parses to an additive Op whose right child is
the multiplicative Op, and `(1 + 2) * 3` parses to a multiplicative Op
whose left child is the Op of the parenthesized addition. -/
theorem c2_precedence :
    expr 20 (initState tsOnePlusTwoTimesThree) =
      .ok (some (.Op (some (.Num (numTok "1"))) (litTok "+")
              (some (.Op (some (.Num (numTok "2"))) (litTok "*")
                (some (.Num (numTok "3")))))),
           ⟨[], 0, endMarkerTok⟩) ∧
    expr 20 (initState tsParenSum) =
      .ok (some (.Op
              (some (.Op (some (.Num (numTok "1"))) (litTok "+")
                (some (.Num (numTok "2")))))
              (litTok "*") (some (.Num (numTok "3")))),
           ⟨[], 0, endMarkerTok⟩) :=
  ⟨rfl, rfl⟩

/-- Claim C3: `check_indent` returns true exactly when the indentation
counter is 0, or the current token is an indentation token whose carried
value equals `indent_level * INDENT_LENGTH`; in all other cases it
returns false. -/
theorem c3_check_indent_iff (s : PState) :
    check_indent s = true ↔
      (s.indent = 0 ∨
        (s.current.type = INDENT ∧
          s.current.value = .vint (s.indent * INDENT_LENGTH))) := by
  unfold check_indent
  by_cases h0 : s.indent = 0
  · simp [h0]
  · by_cases ht : s.current.type = INDENT
    · cases hv : s.current.value with
      | vstr t => simp [h0, ht, hv, pyIntNeVal]
      | vint m =>
        by_cases hm : s.indent * INDENT_LENGTH = m
        · simp [h0, ht, hv, pyIntNeVal, hm]
        · simp [h0, ht, hv, pyIntNeVal, hm]
          intro he
          exact hm he.symm
    · simp [h0, ht]

/-- Witness for C3: a state with indentation counter 0 satisfies
`check_indent`, by the left disjunct of `c3_check_indent_iff`. -/
theorem c3_check_indent_iff_witness :
    check_indent ⟨[], 0, idTok "x"⟩ = true :=
  (c3_check_indent_iff ⟨[], 0, idTok "x"⟩).mpr (Or.inl rfl)

/-- Helper for C4: the Python comparison `n != value` yields `True`
whenever the value is not the integer `n` (a string value always compares
unequal to an integer). -/
theorem pyIntNeVal_true_of_ne (n : Nat) (v : TValue) (h : v ≠ .vint n) :
    pyIntNeVal n v = true := by
  cases v with
  | vstr t => rfl
  | vint m =>
    simp only [pyIntNeVal, bne_iff_ne, ne_eq]
    intro he
    exact h (by rw [he])

/-- Claim C4: when `eat_indent` runs with the current token an indentation
token, it raises the fatal indentation error if the carried value differs
from `indent_level * INDENT_LENGTH` and consumes exactly that one token if
it matches; with any other current token it consumes nothing and leaves
the state unchanged. -/
theorem c4_eat_indent_spec (s : PState) :
    (s.current.type = INDENT →
      s.current.value ≠ .vint (s.indent * INDENT_LENGTH) →
      eat_indent s = .error .indentationMismatch) ∧
    (s.current.type = INDENT →
      s.current.value = .vint (s.indent * INDENT_LENGTH) →
      eat_indent s = .ok ((), advanceState s)) ∧
    (s.current.type ≠ INDENT → eat_indent s = .ok ((), s)) := by
  refine ⟨fun ht hv => ?_, fun ht hv => ?_, fun ht => ?_⟩
  · simp [eat_indent, ht, pyIntNeVal_true_of_ne _ _ hv]
  · simp [eat_indent, eat, ht, hv, pyIntNeVal]
  · simp [eat_indent, ht]

/-- Witness for C4: the three branches of `c4_eat_indent_spec` at concrete
states — a mismatching indentation token at level 1, a matching one at
level 2, and a non-indentation token. -/
theorem c4_eat_indent_spec_witness :
    eat_indent ⟨[], 1, indentTok 3⟩ = .error .indentationMismatch ∧
    eat_indent ⟨[nlTok], 2, indentTok 8⟩ =
      .ok ((), advanceState ⟨[nlTok], 2, indentTok 8⟩) ∧
    eat_indent ⟨[], 0, idTok "x"⟩ = .ok ((), ⟨[], 0, idTok "x"⟩) :=
  ⟨(c4_eat_indent_spec _).1 rfl (by decide),
   (c4_eat_indent_spec _).2.1 rfl (by decide),
   (c4_eat_indent_spec _).2.2 (by decide)⟩

/-- Claim C5: an `if` with `elif` branches and an `else` is supposed to
parse to a right-leaning chain of If nodes.  What the code does: it never
builds any such chain — as soon as the `if` body block is entered,
`parser.py:78` reads `tokens.EOF`, an attribute the module
`lexer.tokens` does not define, raising `AttributeError`; and the `else`
arm of `elif_statement` (`parser.py:205`) reads `tokens.keywords.ELSE`,
an attribute a `frozenset` does not have, also raising `AttributeError`.
The three conjuncts evaluate the full chain, `elif_statement` at an
`else` token, and `elif_statement` at an `elif` token. -/
theorem c5_elif_chain_crash :
    if_statement 40 (initState tsElifChain) = .error (.attrErr "EOF") ∧
    elif_statement 20
        (initState [litTok "else", litTok ":", nlTok, indentTok 4]) =
      .error (.attrErr "ELSE") ∧
    elif_statement 20
        (initState [litTok "elif", numTok "2", litTok ":", nlTok,
                    indentTok 4]) =
      .error (.attrErr "EOF") :=
  ⟨rfl, rfl, rfl⟩

/-- Claim C6: whenever the condition expression of an `if` statement is
not followed by a colon token, `if_statement` fails with the
unexpected-token error carrying the offending token and the expected
type, and returns no tree (the error is the entire result). -/
theorem c6_if_missing_colon (n : Nat) (s s1 s2 : PState) (c : Option Ast)
    (h1 : eat "if" s = .ok ((), s1))
    (h2 : expr n s1 = .ok (c, s2))
    (h3 : s2.current.type ≠ ":") :
    if_statement (n + 1) s =
      .error (.unexpected s2.current (some (.vstr ":"))) := by
  simp only [if_statement, h1, h2]
  simp [eat, h3]

/-- Witness for C6: the malformed statement `if 1` followed directly by a
newline fails with the unexpected-token error naming the newline token and
the expected colon. -/
theorem c6_if_missing_colon_witness :
    if_statement 11 (initState [litTok "if", numTok "1", nlTok]) =
      .error (.unexpected nlTok (some (.vstr ":"))) :=
  c6_if_missing_colon 10 _ ⟨[nlTok], 0, numTok "1"⟩ ⟨[], 0, nlTok⟩
    (some (.Num (numTok "1"))) rfl rfl (by decide)

/-- Claim C7: `iskeyword` returns true on members of the supported keyword
set, raises the fatal error at classification time on reserved words of
the larger unsupported superset, and returns false on everything else. -/
theorem c7_iskeyword_spec (s : String) :
    (s ∈ keywordsSet → iskeyword s = .ok true) ∧
    (s ∉ keywordsSet → s ∈ kwlist → iskeyword s = .error (.keyErr s)) ∧
    (s ∉ keywordsSet → s ∉ kwlist → iskeyword s = .ok false) :=
  ⟨fun h => by simp [iskeyword, h],
   fun h1 h2 => by simp [iskeyword, h1, h2],
   fun h1 h2 => by simp [iskeyword, h1, h2]⟩

/-- Witness for C7: a supported keyword, the unsupported reserved word
`async`, and an ordinary identifier. -/
theorem c7_iskeyword_spec_witness :
    iskeyword "if" = .ok true ∧
    iskeyword "async" = .error (.keyErr "async") ∧
    iskeyword "foo" = .ok false :=
  ⟨(c7_iskeyword_spec "if").1 (by decide),
   (c7_iskeyword_spec "async").2.1 (by decide) (by decide),
   (c7_iskeyword_spec "foo").2.2 (by decide) (by decide)⟩

/-- Claim C8: `- - 3` parses to a UnaryOp wrapping a UnaryOp wrapping the
Num node for 3. -/
theorem c8_unary_chaining :
    factor 20 (initState tsDoubleNeg) =
      .ok (some (.UnaryOp (litTok "-")
              (some (.UnaryOp (litTok "-") (some (.Num (numTok "3")))))),
           ⟨[], 0, endMarkerTok⟩) :=
  rfl

/-- Claim C9: every If node produced by the parser is supposed to carry a
non-null wrong_block.  What the code does: it can produce no If node at
all — both constructions of `ast.If` (`parser.py:183,204`) lie behind
calls of `block` and `elif_statement`, and every such parse aborts with
`AttributeError` (`tokens.EOF` at `parser.py:78`, `tokens.keywords.ELSE`
at `parser.py:205`) before the node is built, as evaluation on a minimal
well-formed `if` statement shows. -/
theorem c9_no_if_node_crash :
    if_statement 30 (initState tsSimpleIf) = .error (.attrErr "EOF") :=
  rfl

/-- Claim C10: `factor` matches none of its alternatives on a newline
token, an end marker, or a delimiter, and then returns Python `None`
without raising and without consuming the token, so Op and Assign nodes
can be built with a missing operand.  The four conjuncts: `factor` on a
newline token and at end of input returns `none` with the state unchanged;
`expr` on `1 +` followed by a newline builds an Op whose right operand is
`none`; `assign_statement` on `x =` followed by a newline builds an Assign
whose right-hand side is `none`. -/
theorem c10_factor_none_fallthrough :
    factor 5 (initState [nlTok]) = .ok (none, initState [nlTok]) ∧
    factor 5 (initState []) = .ok (none, initState []) ∧
    expr 9 (initState [numTok "1", litTok "+", nlTok]) =
      .ok (some (.Op (some (.Num (numTok "1"))) (litTok "+") none),
           ⟨[], 0, nlTok⟩) ∧
    assign_statement 9 (initState [idTok "x", litTok "=", nlTok]) =
      .ok (.Assign (.Var (idTok "x")) (litTok "=") none,
           ⟨[], 0, endMarkerTok⟩) :=
  ⟨rfl, rfl, rfl, rfl⟩

end Robin
